import Mathlib

/-!
Verification of the domain/certificate/identifier topology computation of the
X8Website construct (file lib/x8-website.ts of the xler8r-lite package).

The functions getSiteDomain, getCertificateDomains, getDistributionDomains and
domainNameToPascalCase are embedded below directly from the TypeScript source.
JavaScript-specific behaviour is modelled explicitly: the truthiness test on an
optional string (absent or empty both count as false), String.prototype.replace
with a string pattern (first occurrence only), String.prototype.slice and
String.prototype.lastIndexOf (with its -1 not-found convention), and
String.prototype.split on a one-character separator.
-/

/-- The subset of X8WebSiteProps read by the domain-topology functions:
waDomainName (required), waSubDomain (optional), waAdditionalDomainNames
(optional).  The remaining fields of the TypeScript interface (content path,
root object, error page, bucket and distribution overrides) are opaque
pass-throughs never read by these functions. -/
structure X8WebSiteProps where
  waDomainName : String
  waSubDomain : Option String
  waAdditionalDomainNames : Option (List String)
deriving DecidableEq, Repr

/-- JavaScript split on the one-character separator sep, over the character
list of the string: "a..b".split(".") is ["a","","b"] and "".split(".") is
[""]. -/
def splitOnChar (sep : Char) : List Char → List (List Char)
  | [] => [[]]
  | c :: cs =>
    match splitOnChar sep cs with
    | [] => if c = sep then [[], [c]] else [[c]]
    | r :: rs => if c = sep then [] :: r :: rs else (c :: r) :: rs

/-- All indices i of s at which the pattern pat occurs (pat is a contiguous
sublist of s starting at i). -/
def occIndices (pat s : List Char) : List Nat :=
  (List.range (s.length + 1)).filter (fun i => pat.isPrefixOf (s.drop i))

/-- JavaScript String.prototype.lastIndexOf: index of the last occurrence of
pat in s, or -1 when pat does not occur. -/
def jsLastIndexOf (s pat : List Char) : Int :=
  match (occIndices pat s).getLast? with
  | some i => (i : Int)
  | none => -1

/-- JavaScript String.prototype.replace with a string pattern: only the first
occurrence of pat is replaced by repl; s is returned unchanged when pat does
not occur. -/
def jsReplaceFirst (s pat repl : List Char) : List Char :=
  match (occIndices pat s).head? with
  | some i => s.take i ++ repl ++ s.drop (i + pat.length)
  | none => s

/-- JavaScript s.slice(0, e): a negative end counts from the end of the
string; the result is clamped to the bounds of s. -/
def jsSlice (s : List Char) (e : Int) : List Char :=
  if e < 0 then s.take (s.length - (-e).toNat) else s.take e.toNat

/-- Capitalisation of one word: first character upper-cased, the rest
lower-cased. -/
def capitalizeWord : List Char → List Char
  | [] => []
  | c :: cs => Char.toUpper c :: cs.map Char.toLower

/-- Splits a character list into its maximal runs of alphanumeric characters;
separator characters (such as the hyphen) are dropped.  acc accumulates the
current word in reverse. -/
def wordsAux : List Char → List Char → List (List Char)
  | [], acc => if acc.isEmpty then [] else [acc.reverse]
  | c :: cs, acc =>
    if c.isAlphanum then wordsAux cs (c :: acc)
    else if acc.isEmpty then wordsAux cs []
    else acc.reverse :: wordsAux cs []

/-- Modelled from the spec: the pascalCase function of the external
pascal-case npm library imported by lib/x8-website.ts (the library source is
not part of this repository).  Per the spec, each part is converted to a
word-capitalized form: words are the maximal alphanumeric runs, separators
such as the hyphen are stripped, each word has its first letter capitalised
and the rest lower-cased, and the words are concatenated. -/
def pascalCase (part : List Char) : List Char :=
  ((wordsAux part []).map capitalizeWord).flatten

namespace X8Website

/-- Embeds X8Website.domainNameToPascalCase: split the domain on ".", append
pascalCase(part) + "Dot" for every part, then remove the first "-" occurrence
and slice up to the last occurrence of "Dot" computed on the pre-replace
string. -/
def domainNameToPascalCase (domainName : String) : String :=
  let domainParts : List (List Char) := splitOnChar '.' domainName.data
  let domain : List Char :=
    (domainParts.map (fun domainPart => pascalCase domainPart ++ "Dot".data)).flatten
  ⟨jsSlice (jsReplaceFirst domain "-".data "".data) (jsLastIndexOf domain "Dot".data)⟩

/-- Embeds X8Website.getSiteDomain.  The JavaScript guard
(props.waSubDomain && props.waSubDomain != wwwSubDomain) is true exactly when
the optional is present with a non-empty value different from "www"
(JavaScript truthiness: an empty string is falsy). -/
def getSiteDomain (props : X8WebSiteProps) : String :=
  let wwwSubDomain := "www"
  match props.waSubDomain with
  | some sub =>
    if sub ≠ "" ∧ sub ≠ wwwSubDomain then
      wwwSubDomain ++ "." ++ sub ++ "." ++ props.waDomainName
    else
      wwwSubDomain ++ "." ++ props.waDomainName
  | none => wwwSubDomain ++ "." ++ props.waDomainName

/-- Embeds X8Website.getCertificateDomains: start from the empty list, append
the bare primary domain (subdomain-qualified when the same truthiness guard as
in getSiteDomain holds, the base domain otherwise), then append
waAdditionalDomainNames when present. -/
def getCertificateDomains (props : X8WebSiteProps) : List String :=
  let wwwSubDomain := "www"
  let certificateDomains : List String := []
  let certificateDomains :=
    match props.waSubDomain with
    | some sub =>
      if sub ≠ "" ∧ sub ≠ wwwSubDomain then
        certificateDomains ++ [sub ++ "." ++ props.waDomainName]
      else
        certificateDomains ++ [props.waDomainName]
    | none => certificateDomains ++ [props.waDomainName]
  match props.waAdditionalDomainNames with
  | some additional => certificateDomains ++ additional
  | none => certificateDomains

/-- Embeds X8Website.getDistributionDomains: the certificate domains with the
site domain concatenated as a one-element list at the end. -/
def getDistributionDomains (props : X8WebSiteProps) : List String :=
  getCertificateDomains props ++ [getSiteDomain props]

end X8Website

/-- The fields of the DnsValidatedCertificate resource description built in
the X8Website constructor that this development reasons about: the primary
domain name, the domain of the hosted zone looked up for validation, and the
subject alternative names. -/
structure CertificateDescription where
  domainName : String
  hostedZoneDomain : String
  subjectAlternativeNames : List String
deriving DecidableEq, Repr

/-- Embeds the certificate construction in the X8Website constructor:
domainName is the wwwSiteDomain (getSiteDomain), the hosted zone is looked up
for props.waDomainName, and subjectAlternativeNames is certSans, the value
returned by getCertificateDomains, passed through unmodified. -/
def X8Website.buildCertificateDescription (props : X8WebSiteProps) : CertificateDescription :=
  { domainName := X8Website.getSiteDomain props
    hostedZoneDomain := props.waDomainName
    subjectAlternativeNames := X8Website.getCertificateDomains props }

/-- Helper for removeDuplicates: seen holds the values already emitted. -/
def removeDuplicatesAux : List String → List String → List String
  | [], _ => []
  | d :: ds, seen =>
    if d ∈ seen then removeDuplicatesAux ds seen
    else d :: removeDuplicatesAux ds (d :: seen)

/-- Stated from the words of the spec, for comparison with the code: the list
with duplicates removed, keeping the first occurrence of every value. -/
def removeDuplicates (l : List String) : List String :=
  removeDuplicatesAux l []

/-- The first (primary) certificate domain: the bare subdomain-qualified
domain when the truthiness guard holds, the bare base domain otherwise.
Helper for relating the three domain functions. -/
def certHead (props : X8WebSiteProps) : String :=
  match props.waSubDomain with
  | some sub =>
    if sub ≠ "" ∧ sub ≠ "www" then sub ++ "." ++ props.waDomainName
    else props.waDomainName
  | none => props.waDomainName

theorem getCertificateDomains_eq (props : X8WebSiteProps) :
    X8Website.getCertificateDomains props
      = certHead props :: props.waAdditionalDomainNames.getD [] := by
  unfold X8Website.getCertificateDomains certHead
  rcases props with ⟨base, sub, add⟩
  cases sub <;> cases add <;> simp <;> split <;> simp

theorem www_glue (s base : String) :
    "www" ++ "." ++ s ++ "." ++ base = "www." ++ (s ++ "." ++ base) := by
  have h : ("www" : String) ++ "." = "www." := rfl
  rw [h, String.append_assoc "www." s ".", String.append_assoc "www." (s ++ ".") base]

theorem getSiteDomain_eq (props : X8WebSiteProps) :
    X8Website.getSiteDomain props = "www." ++ certHead props := by
  have h : ("www" : String) ++ "." = "www." := rfl
  rcases props with ⟨base, sub, add⟩
  unfold X8Website.getSiteDomain certHead
  cases sub with
  | none => dsimp only; rw [h]
  | some s =>
    dsimp only
    by_cases hc : s ≠ "" ∧ s ≠ "www"
    · rw [if_pos hc, if_pos hc, www_glue]
    · rw [if_neg hc, if_neg hc, h]

theorem www_prepend_ne (x : String) : "www." ++ x ≠ x := by
  intro h
  have hl := congrArg String.length h
  rw [String.length_append] at hl
  have h4 : ("www." : String).length = 4 := rfl
  rw [h4] at hl
  omega

/-- C1, counterexample: the claim quantifies over every present subDomain
other than "www", including the empty string, but for waSubDomain = some ""
the JavaScript truthiness guard fails and getSiteDomain returns
"www.example.com", not "www..example.com" as the claim demands. -/
theorem C1_counterexample :
    ¬ (X8Website.getSiteDomain ⟨"example.com", some "", none⟩
        = "www." ++ "" ++ "." ++ "example.com") := by decide

/-- C1 (amended): for every request whose waSubDomain is present, non-empty
and different from "www", getSiteDomain returns
"www." + subDomain + "." + baseDomain. -/
theorem C1_www_qualified_site_domain (props : X8WebSiteProps) (sub : String)
    (hp : props.waSubDomain = some sub) (hne : sub ≠ "") (hw : sub ≠ "www") :
    X8Website.getSiteDomain props = "www." ++ sub ++ "." ++ props.waDomainName := by
  unfold X8Website.getSiteDomain
  rw [hp]
  dsimp only
  rw [if_pos ⟨hne, hw⟩, www_glue, ← String.append_assoc, ← String.append_assoc]

theorem C1_www_qualified_site_domain_witness :
    X8Website.getSiteDomain ⟨"example.com", some "shop", none⟩
      = "www." ++ "shop" ++ "." ++ "example.com" :=
  C1_www_qualified_site_domain ⟨"example.com", some "shop", none⟩ "shop" rfl
    (by decide) (by decide)

/-- C2: for every request whose waSubDomain is absent or equal to "www",
getSiteDomain returns "www." + baseDomain. -/
theorem C2_default_site_domain (props : X8WebSiteProps)
    (h : props.waSubDomain = none ∨ props.waSubDomain = some "www") :
    X8Website.getSiteDomain props = "www." ++ props.waDomainName := by
  have hd : ("www" : String) ++ "." = "www." := rfl
  rcases h with h | h
  · unfold X8Website.getSiteDomain
    rw [h]
    dsimp only
    rw [hd]
  · unfold X8Website.getSiteDomain
    rw [h]
    dsimp only
    rw [if_neg (by decide), hd]

theorem C2_default_site_domain_witness :
    X8Website.getSiteDomain ⟨"example.com", none, none⟩ = "www." ++ "example.com" :=
  C2_default_site_domain ⟨"example.com", none, none⟩ (Or.inl rfl)

/-- C3, counterexample: for waSubDomain = some "" (present and different from
"www") the claim demands the first certificate domain to be
subDomain + "." + baseDomain = ".example.com", but the code returns
"example.com" (the truthiness guard treats the empty subdomain as absent). -/
theorem C3_counterexample :
    ¬ ((X8Website.getCertificateDomains ⟨"example.com", some "", none⟩).head?
        = some ("" ++ "." ++ "example.com")) := by decide

/-- C3 (amended): getCertificateDomains always has length
1 + len(additionalDomains), its tail is additionalDomains in input order, its
first element is subDomain + "." + baseDomain when subDomain is present,
non-empty and not "www", and the bare baseDomain when subDomain is absent,
empty, or equal to "www". -/
theorem C3_certificate_domains_shape (props : X8WebSiteProps) :
    (X8Website.getCertificateDomains props).length
        = 1 + (props.waAdditionalDomainNames.getD []).length
    ∧ (X8Website.getCertificateDomains props).tail
        = props.waAdditionalDomainNames.getD []
    ∧ (∀ sub, props.waSubDomain = some sub → sub ≠ "" → sub ≠ "www" →
        (X8Website.getCertificateDomains props).head?
          = some (sub ++ "." ++ props.waDomainName))
    ∧ ((props.waSubDomain = none ∨ props.waSubDomain = some ""
          ∨ props.waSubDomain = some "www") →
        (X8Website.getCertificateDomains props).head? = some props.waDomainName) := by
  rw [getCertificateDomains_eq]
  refine ⟨by simp [Nat.add_comm], rfl, ?_, ?_⟩
  · intro sub hp hne hw
    simp [certHead, hp, hne, hw]
  · intro h
    rcases h with h | h | h <;> simp [certHead, h]

theorem C3_certificate_domains_shape_witness :
    (X8Website.getCertificateDomains
        ⟨"example.com", some "shop", some ["alt.example.com"]⟩).head?
      = some ("shop" ++ "." ++ "example.com") :=
  (C3_certificate_domains_shape ⟨"example.com", some "shop", some ["alt.example.com"]⟩).2.2.1
    "shop" rfl (by decide) (by decide)

/-- C4: getDistributionDomains is getCertificateDomains with getSiteDomain
appended as the single last element, and its length is exactly
2 + len(additionalDomains). -/
theorem C4_distribution_domains_decomposition (props : X8WebSiteProps) :
    X8Website.getDistributionDomains props
        = X8Website.getCertificateDomains props ++ [X8Website.getSiteDomain props]
    ∧ (X8Website.getDistributionDomains props).length
        = 2 + (props.waAdditionalDomainNames.getD []).length := by
  constructor
  · rfl
  · unfold X8Website.getDistributionDomains
    rw [getCertificateDomains_eq]
    simp only [List.length_append, List.length_cons, List.length_nil]
    omega

theorem C4_distribution_domains_decomposition_witness :
    X8Website.getDistributionDomains ⟨"example.com", none, some ["alt.example.com"]⟩
      = X8Website.getCertificateDomains ⟨"example.com", none, some ["alt.example.com"]⟩
          ++ [X8Website.getSiteDomain ⟨"example.com", none, some ["alt.example.com"]⟩] :=
  (C4_distribution_domains_decomposition ⟨"example.com", none, some ["alt.example.com"]⟩).1

/-- C5, counterexample: the claim admits an arbitrary caller-supplied
additionalDomains list, but when that list itself contains the site domain,
getDistributionDomains holds the site domain twice: for baseDomain
"example.com" with additionalDomains ["www.example.com"], the result is
["example.com", "www.example.com", "www.example.com"] and the site domain
"www.example.com" occurs twice. -/
theorem C5_counterexample :
    ¬ ((X8Website.getDistributionDomains ⟨"example.com", none, some ["www.example.com"]⟩).count
        (X8Website.getSiteDomain ⟨"example.com", none, some ["www.example.com"]⟩) ≤ 1) := by
  decide

/-- C5 (amended): whenever additionalDomains does not itself contain the site
domain, the site domain occurs exactly once in getDistributionDomains (it is
appended once at the end, and the primary certificate domain differs from it
by the "www." qualification). -/
theorem C5_site_domain_count (props : X8WebSiteProps)
    (h : X8Website.getSiteDomain props ∉ props.waAdditionalDomainNames.getD []) :
    (X8Website.getDistributionDomains props).count (X8Website.getSiteDomain props) = 1 := by
  have hne : X8Website.getSiteDomain props ≠ certHead props := by
    rw [getSiteDomain_eq]
    exact www_prepend_ne (certHead props)
  unfold X8Website.getDistributionDomains
  rw [getCertificateDomains_eq, List.count_append, List.count_cons_of_ne hne,
    List.count_eq_zero.mpr h]
  simp

theorem C5_site_domain_count_witness :
    (X8Website.getDistributionDomains ⟨"example.com", none, some ["alt.example.com"]⟩).count
        (X8Website.getSiteDomain ⟨"example.com", none, some ["alt.example.com"]⟩) = 1 :=
  C5_site_domain_count ⟨"example.com", none, some ["alt.example.com"]⟩ (by decide)

/-- C6, counterexample: the constructor passes certSans to
subjectAlternativeNames unmodified; for additionalDomains ["example.com"]
under baseDomain "example.com" the SAN list is
["example.com", "example.com"], not the deduplicated ["example.com"] the
claim demands. -/
theorem C6_counterexample :
    ¬ ((X8Website.buildCertificateDescription
          ⟨"example.com", none, some ["example.com"]⟩).subjectAlternativeNames
        = removeDuplicates
            (X8Website.getCertificateDomains ⟨"example.com", none, some ["example.com"]⟩)) := by
  decide

/-- C6 (amended): the subject-alternative-name list placed in the TLS
certificate description equals getCertificateDomains exactly as computed: no
duplicate removal is performed. -/
theorem C6_sans_passed_unmodified (props : X8WebSiteProps) :
    (X8Website.buildCertificateDescription props).subjectAlternativeNames
      = X8Website.getCertificateDomains props := rfl

theorem C6_sans_passed_unmodified_witness :
    (X8Website.buildCertificateDescription
        ⟨"example.com", none, some ["example.com"]⟩).subjectAlternativeNames
      = X8Website.getCertificateDomains ⟨"example.com", none, some ["example.com"]⟩ :=
  C6_sans_passed_unmodified ⟨"example.com", none, some ["example.com"]⟩

/-- C7, counterexample: for the input "a-b-c.com", which carries a "-"
occurrence after the first one, the claim demands that the later occurrence
be kept, yet the result "ABCDotCom" contains no "-" at all: pascalCase
already stripped every hyphen before the replace ran. -/
theorem C7_counterexample :
    X8Website.domainNameToPascalCase "a-b-c.com" = "ABCDotCom"
    ∧ '-' ∉ (X8Website.domainNameToPascalCase "a-b-c.com").data := by decide

/-- C7 (amended): every "-" is removed during per-part capitalisation
(pascalCase strips separator characters), so the subsequent replace of the
first "-" occurrence of the concatenated string finds nothing to remove: the
identifier of "my-app.example.com" is "MyAppDotExampleDotCom", and even with
several hyphens, as in "a-b-c.com", no "-" survives in the result. -/
theorem C7_all_hyphens_stripped :
    X8Website.domainNameToPascalCase "my-app.example.com" = "MyAppDotExampleDotCom"
    ∧ X8Website.domainNameToPascalCase "a-b-c.com" = "ABCDotCom"
    ∧ '-' ∉ (X8Website.domainNameToPascalCase "my-app.example.com").data
    ∧ '-' ∉ (X8Website.domainNameToPascalCase "a-b-c.com").data := by decide

/-- C8, counterexample: domainNameToPascalCase is not injective on domain
strings: the distinct domains "a.dot" and "a.." both map to "ADotDot" (a part
spelled "dot" capitalises to the literal separator token "Dot", and an empty
part contributes only the separator token, so both concatenate to
"ADotDotDot" before truncation). -/
theorem C8_counterexample :
    ("a.dot" : String) ≠ "a.."
    ∧ X8Website.domainNameToPascalCase "a.dot" = X8Website.domainNameToPascalCase "a.." := by
  decide

/-- C8 (amended): the identifier computation is deterministic but not
injective: distinct domains can collide, for example "a.dot" and "a.." both
yield the identifier "ADotDot". -/
theorem C8_identifier_collision :
    X8Website.domainNameToPascalCase "a.dot" = "ADotDot"
    ∧ X8Website.domainNameToPascalCase "a.." = "ADotDot"
    ∧ ("a.dot" : String) ≠ "a.." := by decide

/-- C9: domainNameToPascalCase maps "example.com" to exactly "ExampleDotCom":
each dot-separated part is capitalised, the token "Dot" is appended after
each part, and the trailing "Dot" is dropped by the final slice. -/
theorem C9_example_com_identifier :
    X8Website.domainNameToPascalCase "example.com" = "ExampleDotCom" := by decide

/-- C10: a present but empty waSubDomain is treated exactly as if it were
absent: getSiteDomain returns "www." + baseDomain (not "www.." + baseDomain),
the first certificate domain is the bare baseDomain (not "." + baseDomain),
and both functions agree with their value at waSubDomain = none. -/
theorem C10_empty_subdomain_like_absent (base : String) (add : Option (List String)) :
    X8Website.getSiteDomain ⟨base, some "", add⟩ = "www." ++ base
    ∧ (X8Website.getCertificateDomains ⟨base, some "", add⟩).head? = some base
    ∧ X8Website.getSiteDomain ⟨base, some "", add⟩
        = X8Website.getSiteDomain ⟨base, none, add⟩
    ∧ X8Website.getCertificateDomains ⟨base, some "", add⟩
        = X8Website.getCertificateDomains ⟨base, none, add⟩ := by
  refine ⟨?_, ?_, ?_, ?_⟩
  · rw [getSiteDomain_eq]
    simp [certHead]
  · rw [getCertificateDomains_eq]
    simp [certHead]
  · rw [getSiteDomain_eq, getSiteDomain_eq]
    simp [certHead]
  · rw [getCertificateDomains_eq, getCertificateDomains_eq]
    simp [certHead]

theorem C10_empty_subdomain_like_absent_witness :
    X8Website.getSiteDomain ⟨"example.com", some "", none⟩ = "www." ++ "example.com" :=
  (C10_empty_subdomain_like_absent "example.com" none).1
